import Mathlib

/-!
Shallow embedding of `cfun.py`: a function-composition helper built from
operator overloading.  The module defines three classes:

* `_LeftFlowing(partial)` with `__lshift__(self, other)` returning
  `_LeftFlowing(lambda *a: self(other(*a)))`;
* `_RightFlowing(partial)` with `__rshift__(self, other)` returning
  `_RightFlowing(lambda *a: other(self(*a)))`, and `__or__ = __rshift__`;
* `_Compositor` with `__lshift__(f) = _LeftFlowing(f)`,
  `__rshift__(f) = _RightFlowing(f)`, `__or__ = __rshift__`,
  and the module-level value `cfun = _Compositor()`.

We model the runtime values that can appear as operands, Python's binary
operator dispatch (a missing `__rshift__`/`__lshift__`/`__or__` slot, with no
reflected slot on the right operand, yields `TypeError`), the constructor of
`functools.partial` (which raises `TypeError` when its argument is not
callable), and calling a value (calling a non-callable, including the
`_Compositor` instance which has no `__call__`, raises `TypeError`).
User functions may raise: a callable's behaviour is `α → Except (PyErr ε) α`,
and Python's strict evaluation of `other(self(x))` is the `Except` bind.
-/

namespace Cfun

/-- Errors observable at the Python level: the interpreter's `TypeError`
(unsupported operand types, non-callable `partial` argument, calling a
non-callable) and arbitrary errors raised by user functions. -/
inductive PyErr (ε : Type) where
  | typeError : PyErr ε
  | userErr : ε → PyErr ε
  deriving DecidableEq, Repr

/-- Behaviour of a unary callable: result or raised error. -/
abbrev Fn (ε α : Type) := α → Except (PyErr ε) α

/-- Runtime values relevant to the module: the `_Compositor` instance `cfun`,
`_LeftFlowing` and `_RightFlowing` instances (a `partial` wrapping one
callable), an ordinary callable (defining none of the operator slots, reflected
or direct), and a non-callable object. -/
inductive Val (ε α : Type) where
  | compositor : Val ε α
  | leftFlowing : Fn ε α → Val ε α
  | rightFlowing : Fn ε α → Val ε α
  | callable : Fn ε α → Val ε α
  | nonCallable : Val ε α

variable {ε α : Type}

/-- Python's `callable(v)`: the `_Compositor` instance defines no `__call__`,
`partial` instances and ordinary functions are callable. -/
def isCallable : Val ε α → Bool
  | .compositor => false
  | .nonCallable => false
  | _ => true

/-- Calling a value on one argument.  Calling a non-callable (including the
`_Compositor` instance) raises `TypeError`; a `partial` instance forwards to
its wrapped callable; an ordinary callable runs its own behaviour. -/
def call : Val ε α → Fn ε α
  | .compositor, _ => .error .typeError
  | .leftFlowing f, x => f x
  | .rightFlowing f, x => f x
  | .callable f, x => f x
  | .nonCallable, _ => .error .typeError

/-- Constructor `_RightFlowing(func)`, i.e. `partial(func)`: raises
`TypeError` when `func` is not callable, else stores its call behaviour. -/
def mkRightFlowing (v : Val ε α) : Except (PyErr ε) (Val ε α) :=
  if isCallable v then .ok (.rightFlowing (call v)) else .error .typeError

/-- Constructor `_LeftFlowing(func)`, i.e. `partial(func)`: raises
`TypeError` when `func` is not callable, else stores its call behaviour. -/
def mkLeftFlowing (v : Val ε α) : Except (PyErr ε) (Val ε α) :=
  if isCallable v then .ok (.leftFlowing (call v)) else .error .typeError

/-- The `>>` operator between runtime values, following Python dispatch:
`_Compositor.__rshift__(func)` is `_RightFlowing(func)`;
`_RightFlowing.__rshift__(self, other)` builds the closure
`lambda *a: other(self(*a))` (a genuine function, so the `partial`
constructor accepts it) and wraps it in `_RightFlowing`; every other left
operand lacks `__rshift__` and no modelled value defines `__rrshift__`,
so the operation raises `TypeError`. -/
def rshift : Val ε α → Val ε α → Except (PyErr ε) (Val ε α)
  | .compositor, v => mkRightFlowing v
  | .rightFlowing f, v => .ok (.rightFlowing (fun x => f x >>= call v))
  | _, _ => .error .typeError

/-- The `<<` operator between runtime values, following Python dispatch:
`_Compositor.__lshift__(func)` is `_LeftFlowing(func)`;
`_LeftFlowing.__lshift__(self, other)` builds the closure
`lambda *a: self(other(*a))` and wraps it in `_LeftFlowing`; every other
left operand lacks `__lshift__` and no modelled value defines
`__rlshift__`, so the operation raises `TypeError`. -/
def lshift : Val ε α → Val ε α → Except (PyErr ε) (Val ε α)
  | .compositor, v => mkLeftFlowing v
  | .leftFlowing f, v => .ok (.leftFlowing (fun x => call v x >>= f))
  | _, _ => .error .typeError

/-- The `|` operator: both `_RightFlowing` and `_Compositor` set
`__or__ = __rshift__`, and no other modelled value defines `__or__` or
`__ror__`; the dispatch therefore coincides with `rshift`. -/
def orOp : Val ε α → Val ε α → Except (PyErr ε) (Val ε α) := rshift

/-- Chain `cfun >> f1 >> ... >> fn` for ordinary callables `fs`. -/
def buildR (fs : List (Fn ε α)) : Except (PyErr ε) (Val ε α) :=
  fs.foldlM (fun g f => rshift g (.callable f)) Val.compositor

/-- Chain `cfun << f1 << ... << fn` for ordinary callables `fs`. -/
def buildL (fs : List (Fn ε α)) : Except (PyErr ε) (Val ε α) :=
  fs.foldlM (fun g f => lshift g (.callable f)) Val.compositor

/-- Chain `cfun | f1 | ... | fn` for ordinary callables `fs`. -/
def buildOr (fs : List (Fn ε α)) : Except (PyErr ε) (Val ε α) :=
  fs.foldlM (fun g f => orOp g (.callable f)) Val.compositor

/-- Build the rightward chain and invoke it on `x`. -/
def callR (fs : List (Fn ε α)) (x : α) : Except (PyErr ε) α :=
  buildR fs >>= fun g => call g x

/-- Build the leftward chain and invoke it on `x`. -/
def callL (fs : List (Fn ε α)) (x : α) : Except (PyErr ε) α :=
  buildL fs >>= fun g => call g x

/-- Build the pipe chain and invoke it on `x`. -/
def callOr (fs : List (Fn ε α)) (x : α) : Except (PyErr ε) α :=
  buildOr fs >>= fun g => call g x

/-- Specification-side meaning of `fn(...f2(f1(x))...)` under strict
evaluation: apply the functions first-to-last, propagating errors. -/
def seqApply : List (Fn ε α) → Fn ε α
  | [], x => .ok x
  | f :: fs, x => f x >>= seqApply fs

/-- Specification-side meaning of `f1(f2(...fn(x)...))` under strict
evaluation: the last function runs first, the first runs outermost. -/
def nestApply : List (Fn ε α) → Fn ε α
  | [], x => .ok x
  | f :: fs, x => nestApply fs x >>= f

theorem bind_ok_right (m : Except (PyErr ε) α) :
    (m >>= fun y => (.ok y : Except (PyErr ε) α)) = m := by
  cases m <;> rfl

theorem bind_assoc_except (m : Except (PyErr ε) α) (f g : Fn ε α) :
    ((m >>= f) >>= g) = (m >>= fun x => f x >>= g) := by
  cases m <;> rfl

theorem call_callable (f : Fn ε α) : call (Val.callable f) = f := rfl

theorem seqApply_nil : seqApply ([] : List (Fn ε α)) = fun x => .ok x := rfl

theorem seqApply_cons (f : Fn ε α) (fs : List (Fn ε α)) (x : α) :
    seqApply (f :: fs) x = f x >>= seqApply fs := rfl

theorem seqApply_append (as bs : List (Fn ε α)) (x : α) :
    seqApply (as ++ bs) x = seqApply as x >>= seqApply bs := by
  induction as generalizing x with
  | nil => rfl
  | cons f as ih =>
      simp only [List.cons_append, seqApply_cons]
      cases f x with
      | error e => rfl
      | ok y => exact ih y

theorem nestApply_eq_reverse (fs : List (Fn ε α)) (x : α) :
    nestApply fs x = seqApply fs.reverse x := by
  induction fs generalizing x with
  | nil => rfl
  | cons f fs ih =>
      show nestApply fs x >>= f = seqApply (f :: fs).reverse x
      rw [List.reverse_cons, seqApply_append, ih]
      cases seqApply fs.reverse x with
      | error e => rfl
      | ok y => exact (bind_ok_right (f y)).symm

theorem foldR_rightFlowing (fs : List (Fn ε α)) (h : Fn ε α) :
    fs.foldlM (fun g f => rshift g (.callable f)) (Val.rightFlowing h)
      = .ok (.rightFlowing (fun x => h x >>= seqApply fs)) := by
  induction fs generalizing h with
  | nil =>
      show Except.ok (Val.rightFlowing h)
        = .ok (.rightFlowing (fun x => h x >>= seqApply []))
      congr 1
      congr 1
      funext x
      exact (bind_ok_right (h x)).symm
  | cons f fs ih =>
      show fs.foldlM (fun g f => rshift g (.callable f))
            (Val.rightFlowing (fun x => h x >>= f))
          = .ok (.rightFlowing (fun x => h x >>= seqApply (f :: fs)))
      rw [ih]
      congr 1
      congr 1
      funext x
      exact bind_assoc_except (h x) f (seqApply fs)

theorem foldL_leftFlowing (fs : List (Fn ε α)) (h : Fn ε α) :
    fs.foldlM (fun g f => lshift g (.callable f)) (Val.leftFlowing h)
      = .ok (.leftFlowing (fun x => seqApply fs.reverse x >>= h)) := by
  induction fs generalizing h with
  | nil =>
      rfl
  | cons f fs ih =>
      show fs.foldlM (fun g f => lshift g (.callable f))
            (Val.leftFlowing (fun x => f x >>= h))
          = .ok (.leftFlowing (fun x => seqApply (f :: fs).reverse x >>= h))
      rw [ih]
      congr 1
      congr 1
      funext x
      rw [List.reverse_cons, seqApply_append, bind_assoc_except]
      congr 1
      funext y
      show f y >>= h = seqApply [f] y >>= h
      rw [show seqApply [f] y = f y >>= fun z => (.ok z : Except (PyErr ε) α) from rfl,
        bind_assoc_except]
      cases f y <;> rfl

theorem buildR_cons (f : Fn ε α) (fs : List (Fn ε α)) :
    buildR (f :: fs) = .ok (.rightFlowing (seqApply (f :: fs))) := by
  show fs.foldlM (fun g f => rshift g (.callable f)) (Val.rightFlowing f)
      = .ok (.rightFlowing (seqApply (f :: fs)))
  rw [foldR_rightFlowing]
  rfl

theorem buildL_cons (f : Fn ε α) (fs : List (Fn ε α)) :
    buildL (f :: fs) = .ok (.leftFlowing (nestApply (f :: fs))) := by
  show fs.foldlM (fun g f => lshift g (.callable f)) (Val.leftFlowing f)
      = .ok (.leftFlowing (nestApply (f :: fs)))
  rw [foldL_leftFlowing]
  congr 1
  congr 1
  funext x
  show seqApply fs.reverse x >>= f = nestApply (f :: fs) x
  rw [show nestApply (f :: fs) x = nestApply fs x >>= f from rfl,
    nestApply_eq_reverse]

theorem callR_eq (f : Fn ε α) (fs : List (Fn ε α)) (x : α) :
    callR (f :: fs) x = seqApply (f :: fs) x := by
  rw [callR, buildR_cons]
  rfl

theorem callL_eq (f : Fn ε α) (fs : List (Fn ε α)) (x : α) :
    callL (f :: fs) x = nestApply (f :: fs) x := by
  rw [callL, buildL_cons]
  rfl

/-- Claim C1: for every nonempty sequence of unary functions `f :: fs` and
every input `x`, the rightward chain `cfun >> f1 >> ... >> fn` applied to `x`
computes `fn(...f2(f1(x))...)`: the function combined earliest runs first on
the original input, each later one on the prior result. -/
theorem rightward_chain_forward_order (f : Fn ε α) (fs : List (Fn ε α)) (x : α) :
    callR (f :: fs) x = seqApply (f :: fs) x :=
  callR_eq f fs x

/-- Claim C2: for every nonempty sequence of unary functions `f :: fs` and
every input `x`, the leftward chain `cfun << f1 << ... << fn` applied to `x`
computes `f1(f2(...fn(x)...))`: the function combined earliest runs last,
outermost, mirroring mathematical composition order. -/
theorem leftward_chain_reverse_order (f : Fn ε α) (fs : List (Fn ε α)) (x : α) :
    callL (f :: fs) x = nestApply (f :: fs) x :=
  callL_eq f fs x

/-- Claim C3: the combine steps over callables never raise (both builds
return `ok` values regardless of what the wrapped functions would raise),
and invoking the composed chain returns exactly what the hand-written nested
expression returns, so an error raised by any chained function propagates
identically, unwrapped and unmodified. -/
theorem chain_error_propagation (f : Fn ε α) (fs : List (Fn ε α)) (x : α) :
    buildR (f :: fs) = .ok (.rightFlowing (seqApply (f :: fs)))
      ∧ buildL (f :: fs) = .ok (.leftFlowing (nestApply (f :: fs)))
      ∧ (∀ e, seqApply (f :: fs) x = .error e → callR (f :: fs) x = .error e)
      ∧ (∀ e, nestApply (f :: fs) x = .error e → callL (f :: fs) x = .error e) :=
  ⟨buildR_cons f fs, buildL_cons f fs,
    fun _ he => (callR_eq f fs x).trans he,
    fun _ he => (callL_eq f fs x).trans he⟩

/-- Witness for C3 at a concrete erroring chain: a one-function chain whose
function raises `userErr 7` propagates that very error on invocation, both
rightward and leftward. -/
theorem chain_error_propagation_witness :
    callR ([fun _ => Except.error (PyErr.userErr 7)] : List (Fn Nat Nat)) 3
        = .error (.userErr 7)
      ∧ callL ([fun _ => Except.error (PyErr.userErr 7)] : List (Fn Nat Nat)) 3
        = .error (.userErr 7) :=
  ⟨(chain_error_propagation (fun _ => Except.error (PyErr.userErr 7)) [] 3).2.2.1
      (.userErr 7) rfl,
    (chain_error_propagation (fun _ => Except.error (PyErr.userErr 7)) [] 3).2.2.2
      (.userErr 7) rfl⟩

/-- Claim C4: no cross-direction operator is defined: `>>` and `|` applied to
a leftward Composed Function and an ordinary callable, and `<<` applied to a
rightward Composed Function and an ordinary callable, raise the interpreter's
`TypeError` (unsupported operand types), not a custom error. -/
theorem cross_direction_unsupported (g f : Fn ε α) :
    rshift (Val.leftFlowing g) (Val.callable f) = .error .typeError
      ∧ orOp (Val.leftFlowing g) (Val.callable f) = .error .typeError
      ∧ lshift (Val.rightFlowing g) (Val.callable f) = .error .typeError :=
  ⟨rfl, rfl, rfl⟩

/-- Claim C5: the pipe operator is an exact alias of rightward combination:
`|` performs the very same operation as `>>` on every pair of operands, both
when starting from the Composer and when extending a rightward chain, so
`(cfun | f1 | f2)(x) = (cfun >> f1 >> f2)(x)`. -/
theorem pipe_alias_equivalence (f1 f2 : Fn ε α) (x : α) :
    (∀ g h : Val ε α, orOp g h = rshift g h)
      ∧ callOr [f1, f2] x = callR [f1, f2] x :=
  ⟨fun _ _ => rfl, rfl⟩

/-- Claim C6: a Composed Function is immutable: combining it with a further
function yields a new Composed Function (an `ok` fresh value whose behaviour
is built from the old one), and the original value's invocation behaviour is
still exactly its stored chain, unchanged. -/
theorem composed_function_immutable (h f : Fn ε α) (x : α) :
    rshift (Val.rightFlowing h) (Val.callable f)
        = .ok (.rightFlowing (fun y => h y >>= f))
      ∧ call (Val.rightFlowing h) x = h x
      ∧ lshift (Val.leftFlowing h) (Val.callable f)
        = .ok (.leftFlowing (fun y => f y >>= h))
      ∧ call (Val.leftFlowing h) x = h x :=
  ⟨rfl, rfl, rfl, rfl⟩

/-- Claim C7: rightward combination is associative: chaining `f`, `g`, `h`
one at a time agrees, on every input, with chaining `f` and then the single
pre-composed function `k(v) = h(g(v))`. -/
theorem rightward_assoc (f g h : Fn ε α) (x : α) :
    callR [f, g, h] x = callR [f, fun v => g v >>= h] x := by
  rw [callR_eq, callR_eq]
  show f x >>= seqApply [g, h] = f x >>= seqApply [fun v => g v >>= h]
  cases f x with
  | error e => rfl
  | ok a =>
      show g a >>= seqApply [h] = (g a >>= h) >>= fun c => Except.ok c
      rw [bind_assoc_except]
      cases g a with
      | error e => rfl
      | ok b => rfl

/-- Claim C8: identity law: composing the Composer with the single identity
function yields a function returning its argument unchanged. -/
theorem identity_law (x : α) :
    callR [fun v => (.ok v : Except (PyErr ε) α)] x = .ok x :=
  rfl

/-- Claim C9: error timing for non-callable operands is asymmetric: the first
combine from the Composer with a non-callable raises `TypeError` immediately
(the `partial` constructor rejects it), for `>>`, `|` and `<<` alike; whereas
extending an existing Composed Function with a non-callable succeeds at
combine time, and invoking the result raises `TypeError` only then: after the
existing rightward chain has run, or before the leftward chain runs. -/
theorem noncallable_error_timing (f : Fn ε α) (x : α) :
    rshift (Val.compositor : Val ε α) Val.nonCallable = .error .typeError
      ∧ orOp (Val.compositor : Val ε α) Val.nonCallable = .error .typeError
      ∧ lshift (Val.compositor : Val ε α) Val.nonCallable = .error .typeError
      ∧ (∃ g, rshift (Val.rightFlowing f) Val.nonCallable = .ok g
          ∧ call g x = f x >>= fun _ => .error .typeError)
      ∧ (∃ g, lshift (Val.leftFlowing f) Val.nonCallable = .ok g
          ∧ call g x = .error .typeError) :=
  ⟨rfl, rfl, rfl,
    ⟨.rightFlowing (fun y => f y >>= call Val.nonCallable), rfl, rfl⟩,
    ⟨.leftFlowing (fun y => call Val.nonCallable y >>= f), rfl, rfl⟩⟩

/-- Claim C10: the Composer value `cfun` is not itself invocable: calling it
on any argument raises `TypeError`, since `_Compositor` defines no call
behaviour. -/
theorem compositor_not_invocable (x : α) :
    call (Val.compositor : Val ε α) x = .error .typeError :=
  rfl

end Cfun
